import Mathlib

/-!
Verification of the spyTrade indicator-and-signal pipeline.

Shallow embedding of the numeric core of the repository:
`analysis/__init__.py` (TechnicalAnalyzer), `analysis/ai_models.py`
(MLPredictor), `alerts/__init__.py` (SignalGenerator) and the relevant
constants of `config/__init__.py`.  Python floats are modelled as exact
rationals (ℚ); the transcendental parts of `MLPredictor.predict_next_move`
(numpy `std`/`tanh`) are modelled over ℝ via an input-output relation.
Timestamps, symbols-as-data, logging, and the mutable `indicators_used`
accumulator do not affect any numeric result and are omitted.
-/

namespace SpyTrade

/-- Candle (data/__init__.py): one OHLCV bar.  The `timestamp` and `symbol`
fields never influence any computation embedded here and are omitted.
`open` is a Lean keyword, hence the field name `open_`. -/
structure Candle where
  open_ : ℚ
  high : ℚ
  low : ℚ
  close : ℚ
  volume : ℚ
deriving DecidableEq, Repr

/-- TechnicalIndicators (data/__init__.py): container of optional indicator
values, `none` meaning the Python `None`. -/
structure TechnicalIndicators where
  rsi : Option ℚ := none
  macd : Option ℚ := none
  macd_signal : Option ℚ := none
  macd_histogram : Option ℚ := none
  sma_20 : Option ℚ := none
  sma_50 : Option ℚ := none
  bollinger_upper : Option ℚ := none
  bollinger_middle : Option ℚ := none
  bollinger_lower : Option ℚ := none
  atr : Option ℚ := none
deriving DecidableEq, Repr

/-- TradeSignal (data/__init__.py).  The `reasoning`, `indicators_used` and
`timestamp` fields are presentation-only and omitted. -/
structure TradeSignal where
  symbol : String
  signal_type : String
  confidence : ℚ
  entry_price : ℚ
  stop_loss : ℚ
  take_profit : ℚ
deriving DecidableEq, Repr

/-- Result of TechnicalAnalyzer.analyze_price_action: the dict returned for
three or more candles.  The Python dict always carries exactly these keys;
`none` at the call sites below models the empty dict returned when fewer
than 3 candles are given. -/
structure PriceAction where
  is_bullish : Bool
  is_bearish : Bool
  body_percent : ℚ
  patterns : List String
  trend_type : String
  close_position : ℚ
deriving DecidableEq, Repr

namespace Config

/-- config/__init__.py line 28. -/
def RSI_OVERBOUGHT : ℚ := 70

/-- config/__init__.py line 29. -/
def RSI_OVERSOLD : ℚ := 30

/-- config/__init__.py line 41: `CONFIDENCE_THRESHOLD = 60`. -/
def CONFIDENCE_THRESHOLD : ℚ := 60

end Config

/-- Arithmetic mean of a list of rationals (np.mean on a nonempty array). -/
def mean (l : List ℚ) : ℚ := l.sum / l.length

/-- Python slice `l[-n:]`.  For `n = 0` Python's `l[-0:]` is `l[0:]`,
i.e. the whole list; for `n > 0` it is the last `min n (length l)`
elements. -/
def lastSlice (n : ℕ) (l : List α) : List α :=
  if n = 0 then l else l.drop (l.length - n)

/-- Successive differences, np.diff: element `i` is `l[i+1] - l[i]`. -/
def diffs (l : List ℚ) : List ℚ := List.zipWith (fun a b => b - a) l l.tail

namespace TechnicalAnalyzer

/-- Average of the last `period` gains (analysis/__init__.py lines 30-35):
positive deltas kept, others replaced by 0. -/
def avg_gain (prices : List ℚ) (period : ℕ) : ℚ :=
  mean (lastSlice period ((diffs prices).map fun d => if 0 < d then d else 0))

/-- Average of the last `period` losses (analysis/__init__.py lines 30-36):
negated negative deltas kept, others replaced by 0. -/
def avg_loss (prices : List ℚ) (period : ℕ) : ℚ :=
  mean (lastSlice period ((diffs prices).map fun d => if d < 0 then -d else 0))

/-- TechnicalAnalyzer.calculate_rsi (analysis/__init__.py lines 14-44). -/
def calculate_rsi (prices : List ℚ) (period : ℕ) : Option ℚ :=
  if prices.length < period + 1 then none
  else if avg_loss prices period = 0 then
    some (if 0 < avg_gain prices period then 100 else 50)
  else
    let rs := avg_gain prices period / avg_loss prices period
    some (100 - 100 / (1 + rs))

/-- Recurrence of TechnicalAnalyzer._ema (analysis/__init__.py lines 261-262):
each output is `price * k + previous * (1 - k)`. -/
def emaRec (k : ℚ) (prev : ℚ) : List ℚ → List ℚ
  | [] => []
  | p :: rest =>
    let e := p * k + prev * (1 - k)
    e :: emaRec k e rest

/-- TechnicalAnalyzer._ema (analysis/__init__.py lines 251-264): empty when
the input is shorter than `period`; otherwise a series of the same length
whose head is the mean of the first `period` prices and whose tail follows
the EMA recurrence over all remaining prices. -/
def ema (prices : List ℚ) (period : ℕ) : List ℚ :=
  if prices.length < period then []
  else
    match prices with
    | [] => []
    | _ :: rest =>
      let k : ℚ := 2 / (period + 1)
      let e0 := mean (prices.take period)
      e0 :: emaRec k e0 rest

/-- TechnicalAnalyzer.calculate_macd (analysis/__init__.py lines 46-76).
The numpy elementwise subtractions are over equal-length arrays in every
reachable case (proved below); `zipWith` embeds them. -/
def calculate_macd (prices : List ℚ) (fast slow signal : ℕ) :
    Option ℚ × Option ℚ × Option ℚ :=
  if prices.length < slow then (none, none, none)
  else
    let ema_fast := ema prices fast
    let ema_slow := ema prices slow
    let macd_line := List.zipWith (fun a b => a - b) ema_fast ema_slow
    if macd_line.length < signal then (none, none, none)
    else
      let signal_line := ema macd_line signal
      let histogram := List.zipWith (fun a b => a - b) macd_line signal_line
      (macd_line.getLast?, signal_line.getLast?, histogram.getLast?)

/-- TechnicalAnalyzer.identify_resistance_support (analysis/__init__.py lines
152-180).  `Except.error ()` marks the `ValueError` that Python's `max()`
raises on an empty sequence; in every other case the levels are returned.
The `recent_high`/`recent_low` bindings of lines 177-178 are dead code
(their values are never used) and are not embedded. -/
def identify_resistance_support (candles : List Candle) (lookback : ℕ) :
    Except Unit (ℚ × ℚ) :=
  let lb := if candles.length < lookback then candles.length else lookback
  let recent_candles := lastSlice lb candles
  let highs := recent_candles.map (·.high)
  let lows := recent_candles.map (·.low)
  match highs.max?, lows.min? with
  | some resistance, some support => Except.ok (resistance, support)
  | _, _ => Except.error ()

/-- TechnicalAnalyzer.analyze_price_action (analysis/__init__.py lines
182-249).  `none` models the empty dict returned for fewer than 3 candles.
The `prev_prev_candle` binding of line 198 is never used by the source and
is not embedded. -/
def analyze_price_action (candles : List Candle) : Option PriceAction :=
  if candles.length < 3 then none
  else
    match candles.reverse with
    | last_candle :: prev_candle :: _ =>
      let body_size := |last_candle.close - last_candle.open_|
      let total_range := last_candle.high - last_candle.low
      let body_percent := if 0 < total_range then body_size / total_range * 100 else 0
      let is_bullish := last_candle.open_ < last_candle.close
      let is_bearish := last_candle.close < last_candle.open_
      let lower_wick :=
        if is_bullish then last_candle.open_ - last_candle.low
        else last_candle.close - last_candle.low
      let upper_wick :=
        if is_bearish then last_candle.high - last_candle.open_
        else last_candle.high - last_candle.close
      let patterns : List String :=
        (if body_percent < 10 ∧ body_size * 2 < total_range then ["doji"] else []) ++
        (if body_percent < 20 ∧ body_size * 2 < lower_wick then ["hammer"] else []) ++
        (if body_percent < 20 ∧ body_size * 2 < upper_wick then ["shooting_star"] else []) ++
        (if 70 < body_percent then ["strong_candle"] else [])
      let higher_high := prev_candle.high < last_candle.high
      let higher_low := prev_candle.low < last_candle.low
      let lower_high := last_candle.high < prev_candle.high
      let lower_low := last_candle.low < prev_candle.low
      let trend_type :=
        if higher_high ∧ higher_low then "uptrend"
        else if lower_high ∧ lower_low then "downtrend"
        else "ranging"
      let close_position :=
        if 0 < total_range then (last_candle.close - last_candle.low) / total_range
        else (1 : ℚ) / 2
      some ⟨is_bullish, is_bearish, body_percent, patterns, trend_type, close_position⟩
    | _ => none

end TechnicalAnalyzer

namespace SignalGenerator

/-- SignalGenerator._analyze_rsi (alerts/__init__.py lines 119-137).  The
`indicators_used` accumulator is a logging aid and is not embedded. -/
def analyze_rsi (indicators : TechnicalIndicators) : ℚ :=
  match indicators.rsi with
  | none => 50
  | some rsi =>
    if rsi < Config.RSI_OVERSOLD then 75
    else if rsi < 40 then 60
    else if Config.RSI_OVERBOUGHT < rsi then 25
    else if 60 < rsi then 40
    else 50

/-- SignalGenerator._analyze_macd (alerts/__init__.py lines 139-155).  Python's
`indicators.macd_histogram or (macd - macd_signal)` falls back whenever the
stored histogram is `None` or equal to `0.0` (a falsy float). -/
def analyze_macd (indicators : TechnicalIndicators) : ℚ :=
  match indicators.macd, indicators.macd_signal with
  | some macd, some macd_signal =>
    let histogram : ℚ :=
      match indicators.macd_histogram with
      | some h => if h = 0 then macd - macd_signal else h
      | none => macd - macd_signal
    if 0 < histogram ∧ macd_signal < macd then 65
    else if histogram < 0 ∧ macd < macd_signal then 35
    else 50
  | _, _ => 50

/-- SignalGenerator._analyze_price_action (alerts/__init__.py lines 157-189):
score of the price-action snapshot, `none` standing for the falsy empty
dict.  The source accumulates `score += ...` through independent conditions;
that sequential accumulation is written here as the equivalent sum of
contributions. -/
def analyze_price_action_score (price_action : Option PriceAction) : ℚ :=
  match price_action with
  | none => 50
  | some p =>
    50 + (if p.is_bullish then 10 else 0) + (if p.is_bearish then -10 else 0) +
    (if "strong_candle" ∈ p.patterns ∧ p.is_bullish then 15
     else if "strong_candle" ∈ p.patterns ∧ p.is_bearish then -15
     else 0) +
    (if "hammer" ∈ p.patterns then 10 else 0) +
    (if "shooting_star" ∈ p.patterns then -10 else 0) +
    (if p.trend_type = "uptrend" then 10
     else if p.trend_type = "downtrend" then -10
     else 0)

/-- SignalGenerator._analyze_moving_averages (alerts/__init__.py lines
191-216): base score from the golden/death-cross test plus the
price-position adjustment (the source's `score += 10` / `score -= 10`). -/
def analyze_moving_averages (current_price : ℚ) (indicators : TechnicalIndicators) : ℚ :=
  match indicators.sma_20, indicators.sma_50 with
  | some sma_20, some sma_50 =>
    (if sma_50 < sma_20 then (60 : ℚ)
     else if sma_20 < sma_50 then 40
     else 50) +
    (if sma_20 < current_price ∧ sma_50 < sma_20 then 10
     else if current_price < sma_20 ∧ sma_20 < sma_50 then -10
     else 0)
  | _, _ => 50

/-- SignalGenerator._analyze_bollinger_bands (alerts/__init__.py lines
218-238).  The `middle` binding of line 228 is dead code and is not
embedded. -/
def analyze_bollinger_bands (current_price : ℚ) (indicators : TechnicalIndicators) : ℚ :=
  match indicators.bollinger_upper, indicators.bollinger_lower with
  | some upper, some lower =>
    let total_range := upper - lower
    let position :=
      if 0 < total_range then (current_price - lower) / total_range
      else (1 : ℚ) / 2
    if 4 / 5 < position then 35
    else if position < 1 / 5 then 65
    else 50
  | _, _ => 50

/-- SignalGenerator._analyze_news_sentiment (alerts/__init__.py lines
240-250). -/
def analyze_news_sentiment (sentiment_score : Option ℚ) : ℚ :=
  match sentiment_score with
  | none => 50
  | some s => 50 + s * 25

/-- SignalGenerator._analyze_ml_prediction (alerts/__init__.py lines
252-262). -/
def analyze_ml_prediction (pred : Option ℚ) : ℚ :=
  match pred with
  | none => 50
  | some p => 50 + p * 25

/-- SignalGenerator._determine_signal_type_ai_first (alerts/__init__.py lines
264-301).  The `news_score` parameter is accepted and ignored, as in the
source. -/
def determine_signal_type_ai_first (ai_score technical_score news_score : ℚ) : String :=
  if 60 < ai_score then
    if 50 < technical_score then "BUY"
    else if technical_score < 40 then "HOLD"
    else "BUY"
  else if ai_score < 40 then
    if technical_score < 50 then "SELL"
    else if 60 < technical_score then "HOLD"
    else "SELL"
  else
    if 60 < technical_score then "BUY"
    else if technical_score < 40 then "SELL"
    else "HOLD"

/-- SignalGenerator._calculate_stop_loss (alerts/__init__.py lines 303-314).
`price_action.get('trend_type')` on the empty dict yields `None`, which is
not `'uptrend'`; the `none` case mirrors that. -/
def calculate_stop_loss (entry : ℚ) (signal_type : String) (atr : ℚ)
    (price_action : Option PriceAction) : ℚ :=
  let atr_multiplier : ℚ :=
    match price_action with
    | some p => if p.trend_type = "uptrend" then 3 / 2 else 1
    | none => 1
  if signal_type = "BUY" then entry - atr * atr_multiplier
  else if signal_type = "SELL" then entry + atr * atr_multiplier
  else entry * (98 / 100)

/-- SignalGenerator._calculate_take_profit (alerts/__init__.py lines
316-327). -/
def calculate_take_profit (entry : ℚ) (signal_type : String) (atr : ℚ) : ℚ :=
  if signal_type = "BUY" then entry + atr * 2
  else if signal_type = "SELL" then entry - atr * 2
  else entry * (102 / 100)

/-- Effective ATR of alerts/__init__.py lines 73-74:
`atr_value = technical_indicators.atr or (last_candle.high - last_candle.low)`
executed only when the `atr_value` argument is `None`.  Python's `or` also
falls back when the stored ATR equals `0.0` (a falsy float). -/
def atr_effective (last_candle : Candle) (indicators : TechnicalIndicators)
    (atr_value : Option ℚ) : ℚ :=
  match atr_value with
  | some a => a
  | none =>
    match indicators.atr with
    | some a => if a = 0 then last_candle.high - last_candle.low else a
    | none => last_candle.high - last_candle.low

/-- SignalGenerator.generate_signal (alerts/__init__.py lines 15-117).
`none` is Python's `None` result.  The guard `not candles or len(candles) < 5`
collapses to the single length test.  The reasoning string (lines 89-99) has
no effect on any other field and is omitted. -/
def generate_signal (symbol : String) (candles : List Candle)
    (technical_indicators : TechnicalIndicators)
    (news_sentiment : Option ℚ) (ml_prediction : Option ℚ)
    (atr_value : Option ℚ) : Option TradeSignal :=
  if candles.length < 5 then none
  else
    match candles.getLast? with
    | none => none
    | some last_candle =>
      let entry_price := last_candle.close
      let price_action := TechnicalAnalyzer.analyze_price_action candles
      let ai_score := analyze_ml_prediction ml_prediction
      let rsi_score := analyze_rsi technical_indicators
      let macd_score := analyze_macd technical_indicators
      let ma_score := analyze_moving_averages last_candle.close technical_indicators
      let bb_score := analyze_bollinger_bands last_candle.close technical_indicators
      let pa_score := analyze_price_action_score price_action
      let news_score := analyze_news_sentiment news_sentiment
      let technical_avg := (rsi_score + macd_score + ma_score + bb_score + pa_score) / 5
      let total_confidence :=
        ai_score * (50 / 100) + technical_avg * (35 / 100) + news_score * (15 / 100)
      let signal_type := determine_signal_type_ai_first ai_score technical_avg news_score
      let atr := atr_effective last_candle technical_indicators atr_value
      let stop_loss := calculate_stop_loss entry_price signal_type atr price_action
      let take_profit := calculate_take_profit entry_price signal_type atr
      if total_confidence < 35 then none
      else some ⟨symbol, signal_type, total_confidence, entry_price, stop_loss, take_profit⟩

/-- Unweighted mean of the five technical factor scores, as computed at
alerts/__init__.py line 66. -/
def technical_avg (close : ℚ) (candles : List Candle)
    (indicators : TechnicalIndicators) : ℚ :=
  (analyze_rsi indicators + analyze_macd indicators +
   analyze_moving_averages close indicators +
   analyze_bollinger_bands close indicators +
   analyze_price_action_score (TechnicalAnalyzer.analyze_price_action candles)) / 5

/-- Aggregate weighted confidence of alerts/__init__.py line 67, as a
standalone function of the inputs (0 in the vacuous no-candle case). -/
def signalConfidence (candles : List Candle) (indicators : TechnicalIndicators)
    (news_sentiment : Option ℚ) (ml_prediction : Option ℚ) : ℚ :=
  match candles.getLast? with
  | none => 0
  | some last_candle =>
    analyze_ml_prediction ml_prediction * (50 / 100) +
    technical_avg last_candle.close candles indicators * (35 / 100) +
    analyze_news_sentiment news_sentiment * (15 / 100)

end SignalGenerator

namespace MLPredictor

/-- Python slice `prices[-lookback:]` of ai_models.py line 31. -/
def recent_prices (prices : List ℚ) (lookback : ℕ) : List ℚ :=
  lastSlice lookback prices

/-- Slope of `np.polyfit(range(len(ys)), ys, 1)` (ai_models.py line 35):
the degree-1 least-squares fit over abscissas `0, 1, ..., n-1`, written in
its closed form `(n·Σxy − Σx·Σy) / (n·Σx² − (Σx)²)`. -/
def trendSlope (ys : List ℚ) : ℚ :=
  let n : ℚ := ys.length
  let xs : List ℚ := (List.range ys.length).map (fun i => (i : ℚ))
  let sx := xs.sum
  let sy := ys.sum
  let sxy := (List.zipWith (fun x y => x * y) xs ys).sum
  let sxx := (xs.map (fun x => x ^ 2)).sum
  (n * sxy - sx * sy) / (n * sxx - sx ^ 2)

/-- Percentage returns `np.diff(ys) / ys[:-1]` of ai_models.py line 38. -/
def pct_returns (ys : List ℚ) : List ℚ :=
  List.zipWith (fun prev next => (next - prev) / prev) ys ys.tail

/-- Population variance, so that `np.std l = Real.sqrt (varianceOf l)`. -/
def varianceOf (l : List ℚ) : ℚ :=
  mean (l.map (fun r => (r - mean l) ^ 2))

/-- MLPredictor.predict_next_move (ai_models.py lines 14-51), embedded as its
input-output relation over exact reals because the source computes the
volatility (`np.std`, a square root) and `np.tanh` in floating point.
Insufficient data returns `(None, 0.0)`; otherwise the prediction is
`tanh(trend / volatility)` when the volatility is positive and `0`
otherwise, and the confidence is
`min ((if 0 < volatility then |trend| / (volatility + 0.0001) else 0.5) / 10) 1`. -/
def predict_next_move (prices : List ℚ) (lookback : ℕ)
    (prediction : Option ℝ) (confidence : ℝ) : Prop :=
  if prices.length < lookback + 1 then prediction = none ∧ confidence = 0
  else
    let recent := recent_prices prices lookback
    let trend : ℝ := (trendSlope recent : ℚ)
    let volatility : ℝ := Real.sqrt ((varianceOf (pct_returns recent) : ℚ))
    let pred : ℝ := if 0 < volatility then Real.tanh (trend / volatility) else 0
    let conf0 : ℝ := if 0 < volatility then |trend| / (volatility + 1 / 10000) else 1 / 2
    prediction = some pred ∧ confidence = min (conf0 / 10) 1

end MLPredictor

/-- Candle with all four prices equal (a bar with zero range). -/
def flatCandle : Candle := ⟨100, 100, 100, 100, 1000⟩

/-- Five identical flat candles: a valid series for generate_signal whose
price-action score is neutral (50) and whose high−low fallback ATR is 0. -/
def fiveFlat : List Candle := List.replicate 5 flatCandle

/-- Candle with a 2-point range around a flat body. -/
def rangeCandle : Candle := ⟨100, 101, 99, 100, 1000⟩

/-- Five identical candles with positive range: price-action score 50 and
high−low fallback ATR 2. -/
def fiveRange : List Candle := List.replicate 5 rangeCandle

/-- TechnicalIndicators with every field absent. -/
def emptyIndicators : TechnicalIndicators := {}

namespace SignalGenerator

/-- Modelled from the spec (section 4.4 weight table): the claimed fixed-weight
seven-factor aggregation — RSI 0.20, MACD 0.20, price-action 0.20, MA 0.15,
Bollinger 0.10, sentiment 0.10, prediction 0.05. -/
def sevenFactorConfidence (rsi macd pa ma bb news ml : ℚ) : ℚ :=
  rsi * (20 / 100) + macd * (20 / 100) + pa * (20 / 100) + ma * (15 / 100) +
  bb * (10 / 100) + news * (10 / 100) + ml * (5 / 100)

/-- Modelled from the spec (section 4.4): the claimed confidence-driven
decision rule `confidence>60 → BUY; confidence<40 → SELL; otherwise HOLD`. -/
def confidenceSignalType (confidence : ℚ) : String :=
  if 60 < confidence then "BUY"
  else if confidence < 40 then "SELL"
  else "HOLD"

/-- Compact statement of the decision rule the source actually implements:
the AI score is primary and the technical average can only confirm or veto,
while the aggregate confidence and the news score play no role. -/
def aiFirstSignalType (ai tech : ℚ) : String :=
  if 60 < ai then (if tech < 40 then "HOLD" else "BUY")
  else if ai < 40 then (if 60 < tech then "HOLD" else "SELL")
  else if 60 < tech then "BUY"
  else if tech < 40 then "SELL"
  else "HOLD"

/-- The signal type the pipeline assigns, as a function of the raw inputs
(the `none` case is unreachable for a produced signal). -/
def aiFirstTypeOf (candles : List Candle) (indicators : TechnicalIndicators)
    (ml_prediction : Option ℚ) : String :=
  match candles.getLast? with
  | none => "HOLD"
  | some last_candle =>
    aiFirstSignalType (analyze_ml_prediction ml_prediction)
      (technical_avg last_candle.close candles indicators)

end SignalGenerator

lemma mean_nonneg {l : List ℚ} (h : ∀ x ∈ l, 0 ≤ x) : 0 ≤ mean l :=
  div_nonneg (List.sum_nonneg h) (by positivity)

lemma mean_pos {l : List ℚ} (h : ∀ x ∈ l, 0 < x) (hne : l ≠ []) : 0 < mean l := by
  refine div_pos (List.sum_pos l h hne) ?_
  exact_mod_cast List.length_pos.mpr hne

lemma mean_eq_zero {l : List ℚ} (h : ∀ x ∈ l, x = 0) : mean l = 0 := by
  unfold mean
  rw [List.sum_eq_zero h, zero_div]

lemma mem_of_mem_lastSlice {l : List α} {n : ℕ} {x : α} (h : x ∈ lastSlice n l) :
    x ∈ l := by
  unfold lastSlice at h
  split at h
  · exact h
  · exact List.mem_of_mem_drop h

lemma lastSlice_length {l : List α} {n : ℕ} (h : n ≤ l.length) (hn : n ≠ 0) :
    (lastSlice n l).length = n := by
  unfold lastSlice
  rw [if_neg hn, List.length_drop]
  omega

lemma diffs_cons_cons (a b : ℚ) (t : List ℚ) :
    diffs (a :: b :: t) = (b - a) :: diffs (b :: t) := rfl

lemma diffs_length (l : List ℚ) : (diffs l).length = l.length - 1 := by
  unfold diffs
  rw [List.length_zipWith, List.length_tail]
  omega

lemma diffs_pos_of_chain {l : List ℚ} (hc : l.Chain' (· < ·)) :
    ∀ d ∈ diffs l, 0 < d := by
  induction l with
  | nil => simp [diffs]
  | cons a t ih =>
    cases t with
    | nil => simp [diffs]
    | cons b t2 =>
      rw [diffs_cons_cons]
      rw [List.chain'_cons] at hc
      intro d hd
      rcases List.mem_cons.mp hd with h | h
      · subst h; linarith [hc.1]
      · exact ih hc.2 d h

namespace TechnicalAnalyzer

lemma avg_gain_nonneg (prices : List ℚ) (period : ℕ) :
    0 ≤ avg_gain prices period := by
  apply mean_nonneg
  intro x hx
  obtain ⟨d, _, rfl⟩ := List.mem_map.mp (mem_of_mem_lastSlice hx)
  split <;> linarith

lemma avg_loss_nonneg (prices : List ℚ) (period : ℕ) :
    0 ≤ avg_loss prices period := by
  apply mean_nonneg
  intro x hx
  obtain ⟨d, _, rfl⟩ := List.mem_map.mp (mem_of_mem_lastSlice hx)
  split <;> linarith

end TechnicalAnalyzer

/-- C6: for every price list of length ≥ period+1 (period ≥ 1), calculate_rsi
returns a value in [0,100]; when the average loss is 0 it returns 100 if the
average gain is positive and 50 otherwise; and for every strictly
monotonically increasing price list it returns exactly 100. -/
theorem C6_rsi_range_and_monotone (prices : List ℚ) (period : ℕ)
    (hp : 1 ≤ period) (hlen : period + 1 ≤ prices.length) :
    (∃ r, TechnicalAnalyzer.calculate_rsi prices period = some r ∧ 0 ≤ r ∧ r ≤ 100) ∧
    (TechnicalAnalyzer.avg_loss prices period = 0 →
      TechnicalAnalyzer.calculate_rsi prices period =
        some (if 0 < TechnicalAnalyzer.avg_gain prices period then 100 else 50)) ∧
    (prices.Chain' (· < ·) →
      TechnicalAnalyzer.calculate_rsi prices period = some 100) := by
  have hlt : ¬ prices.length < period + 1 := not_lt.2 hlen
  refine ⟨?_, ?_, ?_⟩
  · unfold TechnicalAnalyzer.calculate_rsi
    rw [if_neg hlt]
    by_cases h0 : TechnicalAnalyzer.avg_loss prices period = 0
    · rw [if_pos h0]
      exact ⟨_, rfl, by split_ifs <;> norm_num⟩
    · rw [if_neg h0]
      have hl : 0 < TechnicalAnalyzer.avg_loss prices period :=
        lt_of_le_of_ne (TechnicalAnalyzer.avg_loss_nonneg prices period) (Ne.symm h0)
      have hg : 0 ≤ TechnicalAnalyzer.avg_gain prices period :=
        TechnicalAnalyzer.avg_gain_nonneg prices period
      have hrs : 0 ≤ TechnicalAnalyzer.avg_gain prices period /
          TechnicalAnalyzer.avg_loss prices period := div_nonneg hg hl.le
      refine ⟨_, rfl, ?_, ?_⟩
      · have hle : 100 / (1 + TechnicalAnalyzer.avg_gain prices period /
            TechnicalAnalyzer.avg_loss prices period) ≤ 100 := by
          rw [div_le_iff₀ (by linarith)]
          nlinarith
        linarith
      · have hpos : 0 < 100 / (1 + TechnicalAnalyzer.avg_gain prices period /
            TechnicalAnalyzer.avg_loss prices period) := by positivity
        linarith
  · intro h0
    unfold TechnicalAnalyzer.calculate_rsi
    rw [if_neg hlt, if_pos h0]
  · intro hchain
    have hall : ∀ d ∈ diffs prices, 0 < d := diffs_pos_of_chain hchain
    have h0 : TechnicalAnalyzer.avg_loss prices period = 0 := by
      apply mean_eq_zero
      intro x hx
      obtain ⟨d, hd, rfl⟩ := List.mem_map.mp (mem_of_mem_lastSlice hx)
      rw [if_neg (not_lt.2 (hall d hd).le)]
    unfold TechnicalAnalyzer.calculate_rsi
    rw [if_neg hlt, if_pos h0, if_pos]
    apply mean_pos
    · intro x hx
      obtain ⟨d, hd, rfl⟩ := List.mem_map.mp (mem_of_mem_lastSlice hx)
      rw [if_pos (hall d hd)]
      exact hall d hd
    · have hlen2 : period ≤ ((diffs prices).map
          fun d => if 0 < d then d else 0).length := by
        rw [List.length_map, diffs_length]
        omega
      have hsl := lastSlice_length hlen2 (by omega)
      intro hnil
      rw [hnil] at hsl
      simp at hsl
      omega

/-- Witness for C6 at the strictly increasing list [1, 2, 3] with period 2. -/
theorem C6_rsi_witness : TechnicalAnalyzer.calculate_rsi [1, 2, 3] 2 = some 100 :=
  (C6_rsi_range_and_monotone [1, 2, 3] 2 (by norm_num) (by norm_num)).2.2
    (by simp [List.chain'_cons]; norm_num)

/-- C7: the claim that every indicator function returns an absent result
rather than raising fails for identify_resistance_support on the empty
candle list: there `max()` receives an empty sequence and Python raises
`ValueError` (the `Except.error` case), while e.g. calculate_rsi and
analyze_price_action do return their absent results on empty input. -/
theorem C7_empty_candles_raises :
    TechnicalAnalyzer.identify_resistance_support [] 50 = Except.error () ∧
    TechnicalAnalyzer.calculate_rsi [] 14 = none ∧
    TechnicalAnalyzer.analyze_price_action [] = none := by
  exact ⟨rfl, rfl, rfl⟩

namespace TechnicalAnalyzer

lemma emaRec_length (k prev : ℚ) (l : List ℚ) :
    (emaRec k prev l).length = l.length := by
  induction l generalizing prev with
  | nil => rfl
  | cons p rest ih => simp [emaRec, ih]

lemma ema_length {prices : List ℚ} {period : ℕ} (h : period ≤ prices.length) :
    (ema prices period).length = prices.length := by
  unfold ema
  rw [if_neg (not_lt.2 h)]
  cases prices with
  | nil => rfl
  | cons p rest => simp [emaRec_length]

end TechnicalAnalyzer

lemma getLast?_eq_some_of_pos {l : List α} (h : 0 < l.length) :
    ∃ x, l.getLast? = some x :=
  Option.isSome_iff_exists.mp
    (List.getLast?_isSome.mpr (List.ne_nil_of_length_pos h))

/-- C10: for every price list of length ≥ 26, calculate_macd with the default
periods (12, 26, 9) returns all three of MACD, signal and histogram: the
internal EMA returns a series of the same length as its input, so the fast
and slow EMA series have equal length and the internal absence branch for a
short MACD line is unreachable. -/
theorem C10_macd_all_present (prices : List ℚ) (h : 26 ≤ prices.length) :
    (TechnicalAnalyzer.ema prices 12).length = prices.length ∧
    (TechnicalAnalyzer.ema prices 26).length = prices.length ∧
    ∃ m s g, TechnicalAnalyzer.calculate_macd prices 12 26 9 =
      (some m, some s, some g) := by
  have h12 : (TechnicalAnalyzer.ema prices 12).length = prices.length :=
    TechnicalAnalyzer.ema_length (by omega)
  have h26 : (TechnicalAnalyzer.ema prices 26).length = prices.length :=
    TechnicalAnalyzer.ema_length (by omega)
  refine ⟨h12, h26, ?_⟩
  unfold TechnicalAnalyzer.calculate_macd
  rw [if_neg (not_lt.2 h)]
  have hline : (List.zipWith (fun a b => a - b) (TechnicalAnalyzer.ema prices 12)
      (TechnicalAnalyzer.ema prices 26)).length = prices.length := by
    rw [List.length_zipWith, h12, h26]
    omega
  rw [if_neg (by rw [hline]; omega)]
  obtain ⟨m, hm⟩ := getLast?_eq_some_of_pos (l :=
    List.zipWith (fun a b => a - b) (TechnicalAnalyzer.ema prices 12)
      (TechnicalAnalyzer.ema prices 26)) (by omega)
  have hsig : (TechnicalAnalyzer.ema (List.zipWith (fun a b => a - b)
      (TechnicalAnalyzer.ema prices 12) (TechnicalAnalyzer.ema prices 26))
      9).length = prices.length := by
    rw [TechnicalAnalyzer.ema_length (by omega)]
    exact hline
  obtain ⟨s, hs⟩ := getLast?_eq_some_of_pos (l :=
    TechnicalAnalyzer.ema (List.zipWith (fun a b => a - b)
      (TechnicalAnalyzer.ema prices 12) (TechnicalAnalyzer.ema prices 26)) 9)
    (by omega)
  obtain ⟨g, hg⟩ := getLast?_eq_some_of_pos (l :=
    List.zipWith (fun a b => a - b)
      (List.zipWith (fun a b => a - b) (TechnicalAnalyzer.ema prices 12)
        (TechnicalAnalyzer.ema prices 26))
      (TechnicalAnalyzer.ema (List.zipWith (fun a b => a - b)
        (TechnicalAnalyzer.ema prices 12) (TechnicalAnalyzer.ema prices 26)) 9))
    (by rw [List.length_zipWith, hsig, hline]; omega)
  exact ⟨m, s, g, by simp only [hm, hs, hg]⟩

namespace SignalGenerator

lemma determine_eq_aiFirst (ai tech news : ℚ) :
    determine_signal_type_ai_first ai tech news = aiFirstSignalType ai tech := by
  unfold determine_signal_type_ai_first aiFirstSignalType
  split_ifs <;> first | rfl | linarith

lemma generate_signal_eq {symbol : String} {candles : List Candle}
    {ind : TechnicalIndicators} {news ml atrv : Option ℚ} {lc : Candle}
    (h5 : ¬ candles.length < 5) (hlast : candles.getLast? = some lc) :
    generate_signal symbol candles ind news ml atrv =
      if signalConfidence candles ind news ml < 35 then none
      else some ⟨symbol,
        determine_signal_type_ai_first (analyze_ml_prediction ml)
          (technical_avg lc.close candles ind) (analyze_news_sentiment news),
        signalConfidence candles ind news ml,
        lc.close,
        calculate_stop_loss lc.close
          (determine_signal_type_ai_first (analyze_ml_prediction ml)
            (technical_avg lc.close candles ind) (analyze_news_sentiment news))
          (atr_effective lc ind atrv)
          (TechnicalAnalyzer.analyze_price_action candles),
        calculate_take_profit lc.close
          (determine_signal_type_ai_first (analyze_ml_prediction ml)
            (technical_avg lc.close candles ind) (analyze_news_sentiment news))
          (atr_effective lc ind atrv)⟩ := by
  unfold generate_signal signalConfidence technical_avg
  rw [if_neg h5, hlast]

lemma generate_signal_some {symbol : String} {candles : List Candle}
    {ind : TechnicalIndicators} {news ml atrv : Option ℚ} {sig : TradeSignal}
    (h : generate_signal symbol candles ind news ml atrv = some sig) :
    ∃ lc, candles.getLast? = some lc ∧ 5 ≤ candles.length ∧
      35 ≤ signalConfidence candles ind news ml ∧
      sig = ⟨symbol,
        determine_signal_type_ai_first (analyze_ml_prediction ml)
          (technical_avg lc.close candles ind) (analyze_news_sentiment news),
        signalConfidence candles ind news ml,
        lc.close,
        calculate_stop_loss lc.close
          (determine_signal_type_ai_first (analyze_ml_prediction ml)
            (technical_avg lc.close candles ind) (analyze_news_sentiment news))
          (atr_effective lc ind atrv)
          (TechnicalAnalyzer.analyze_price_action candles),
        calculate_take_profit lc.close
          (determine_signal_type_ai_first (analyze_ml_prediction ml)
            (technical_avg lc.close candles ind) (analyze_news_sentiment news))
          (atr_effective lc ind atrv)⟩ := by
  by_cases h5 : candles.length < 5
  · unfold generate_signal at h
    rw [if_pos h5] at h
    exact absurd h (by simp)
  · obtain ⟨lc, hlast⟩ := getLast?_eq_some_of_pos
      (l := candles) (by omega)
    rw [generate_signal_eq h5 hlast] at h
    by_cases hc : signalConfidence candles ind news ml < 35
    · rw [if_pos hc] at h
      exact absurd h (by simp)
    · rw [if_neg hc] at h
      exact ⟨lc, hlast, not_lt.1 h5, not_lt.1 hc, (Option.some_inj.mp h).symm⟩

end SignalGenerator

section Claims

open SignalGenerator TechnicalAnalyzer

/-- Counterexample to C1: with five flat candles, no indicators, no sentiment
and prediction 1, the produced confidence is 62.5 while the claimed
seven-factor weighted sum of the very same factor scores is 51.25. -/
theorem C1_seven_factor_counterexample :
    (generate_signal "SPY" fiveFlat emptyIndicators none (some 1) none).map
        TradeSignal.confidence = some (125 / 2) ∧
    sevenFactorConfidence (analyze_rsi emptyIndicators) (analyze_macd emptyIndicators)
        (analyze_price_action_score (analyze_price_action fiveFlat))
        (analyze_moving_averages 100 emptyIndicators)
        (analyze_bollinger_bands 100 emptyIndicators)
        (analyze_news_sentiment none) (analyze_ml_prediction (some 1)) ≠
      (125 / 2 : ℚ) :=
  ⟨by with_unfolding_all rfl, by with_unfolding_all decide⟩

/-- C1 (amended): the confidence of every produced TradeSignal is the AI-first
weighted sum — prediction score at weight 0.50, each of the five technical
factor scores at effective weight 0.07 (an unweighted technical average at
weight 0.35), sentiment score at weight 0.15 — with each factor at its
neutral default 50 when its data is absent and no renormalization. -/
theorem C1_confidence_formula (symbol : String) (candles : List Candle)
    (ind : TechnicalIndicators) (news ml atrv : Option ℚ) (sig : TradeSignal)
    (lc : Candle) (hlast : candles.getLast? = some lc)
    (h : generate_signal symbol candles ind news ml atrv = some sig) :
    sig.confidence =
      analyze_ml_prediction ml * (50 / 100) +
      analyze_rsi ind * (7 / 100) + analyze_macd ind * (7 / 100) +
      analyze_moving_averages lc.close ind * (7 / 100) +
      analyze_bollinger_bands lc.close ind * (7 / 100) +
      analyze_price_action_score (analyze_price_action candles) * (7 / 100) +
      analyze_news_sentiment news * (15 / 100) := by
  obtain ⟨lc', hlast', -, -, rfl⟩ := generate_signal_some h
  rw [hlast] at hlast'
  obtain rfl : lc = lc' := Option.some_inj.mp hlast'
  show signalConfidence candles ind news ml =
      analyze_ml_prediction ml * (50 / 100) +
      analyze_rsi ind * (7 / 100) + analyze_macd ind * (7 / 100) +
      analyze_moving_averages lc.close ind * (7 / 100) +
      analyze_bollinger_bands lc.close ind * (7 / 100) +
      analyze_price_action_score (analyze_price_action candles) * (7 / 100) +
      analyze_news_sentiment news * (15 / 100)
  unfold signalConfidence technical_avg
  rw [hlast]
  ring

/-- Witness for C1_confidence_formula at the counterexample input. -/
theorem C1_confidence_formula_witness :
    (⟨"SPY", "BUY", 125 / 2, 100, 100, 100⟩ : TradeSignal).confidence =
      analyze_ml_prediction (some 1) * (50 / 100) +
      analyze_rsi emptyIndicators * (7 / 100) +
      analyze_macd emptyIndicators * (7 / 100) +
      analyze_moving_averages flatCandle.close emptyIndicators * (7 / 100) +
      analyze_bollinger_bands flatCandle.close emptyIndicators * (7 / 100) +
      analyze_price_action_score (analyze_price_action fiveFlat) * (7 / 100) +
      analyze_news_sentiment none * (15 / 100) :=
  C1_confidence_formula "SPY" fiveFlat emptyIndicators none (some 1) none
    _ flatCandle (by with_unfolding_all rfl) (by with_unfolding_all rfl)

/-- Counterexample to C2: with five flat candles and prediction 0.8 the
aggregate confidence is exactly 60, which the claimed rule maps to HOLD,
yet the produced signal_type is BUY. -/
theorem C2_threshold_counterexample :
    (generate_signal "SPY" fiveFlat emptyIndicators none (some (4 / 5)) none).map
        (fun s => (s.signal_type, s.confidence)) = some ("BUY", 60) ∧
    confidenceSignalType 60 = "HOLD" :=
  ⟨by with_unfolding_all rfl, by with_unfolding_all rfl⟩

/-- C2 (amended): the signal_type of every produced TradeSignal is determined
not by the aggregate confidence but by the AI score and the technical
average: AI score above 60 gives BUY unless the technical average is below
40 (then HOLD); AI score below 40 gives SELL unless the technical average is
above 60 (then HOLD); otherwise the technical average decides with the same
60/40 cuts. -/
theorem C2_signal_type_ai_first (symbol : String) (candles : List Candle)
    (ind : TechnicalIndicators) (news ml atrv : Option ℚ) (sig : TradeSignal)
    (h : generate_signal symbol candles ind news ml atrv = some sig) :
    sig.signal_type = aiFirstTypeOf candles ind ml := by
  obtain ⟨lc, hlast, -, -, rfl⟩ := generate_signal_some h
  unfold aiFirstTypeOf
  rw [hlast]
  exact determine_eq_aiFirst (analyze_ml_prediction ml)
    (technical_avg lc.close candles ind) (analyze_news_sentiment news)

/-- Witness for C2_signal_type_ai_first at the counterexample input. -/
theorem C2_signal_type_ai_first_witness :
    (⟨"SPY", "BUY", 60, 100, 100, 100⟩ : TradeSignal).signal_type =
      aiFirstTypeOf fiveFlat emptyIndicators (some (4 / 5)) :=
  C2_signal_type_ai_first "SPY" fiveFlat emptyIndicators none (some (4 / 5)) none
    _ (by with_unfolding_all rfl)

/-- Counterexample to C3: on an all-neutral input the aggregate confidence is
50, strictly below the configured threshold (default 60), yet a signal is
produced rather than suppressed. -/
theorem C3_config_threshold_counterexample :
    (generate_signal "SPY" fiveFlat emptyIndicators none none none).map
        TradeSignal.confidence = some 50 ∧
    (50 : ℚ) < Config.CONFIDENCE_THRESHOLD :=
  ⟨by with_unfolding_all rfl, by norm_num [Config.CONFIDENCE_THRESHOLD]⟩

/-- C3 (amended): for every input with at least 5 candles, generate_signal
returns absent exactly when the aggregate confidence is below the hard-coded
cutoff 35; the configured threshold (default 60) is not the value used. -/
theorem C3_suppression_threshold (symbol : String) (candles : List Candle)
    (ind : TechnicalIndicators) (news ml atrv : Option ℚ)
    (h5 : 5 ≤ candles.length) :
    generate_signal symbol candles ind news ml atrv = none ↔
      signalConfidence candles ind news ml < 35 := by
  obtain ⟨lc, hlast⟩ := getLast?_eq_some_of_pos (l := candles) (by omega)
  rw [generate_signal_eq (not_lt.2 h5) hlast]
  by_cases hc : signalConfidence candles ind news ml < 35
  · simp [hc]
  · simp [hc]

/-- Witness for C3_suppression_threshold at the counterexample input. -/
theorem C3_suppression_threshold_witness :
    (generate_signal "SPY" fiveFlat emptyIndicators none none none = none ↔
      signalConfidence fiveFlat emptyIndicators none none < 35) :=
  C3_suppression_threshold "SPY" fiveFlat emptyIndicators none none none
    (by decide)

/-- Counterexample to C4: a 5-candle series (flat candles, no indicators,
sentiment −1, prediction −1) has aggregate confidence 33.75 < 35 and yields
absent, refuting "at least 5 candles always produces a TradeSignal". -/
theorem C4_five_candle_counterexample :
    5 ≤ fiveFlat.length ∧
    generate_signal "SPY" fiveFlat emptyIndicators (some (-1)) (some (-1)) none =
      none :=
  ⟨by decide, by with_unfolding_all rfl⟩

/-- C4 (amended): generate_signal produces a TradeSignal exactly when the
series has at least 5 candles and the aggregate confidence reaches the
hard-coded cutoff 35; every shorter series (for example any 2-candle series)
yields absent. -/
theorem C4_signal_presence (symbol : String) (candles : List Candle)
    (ind : TechnicalIndicators) (news ml atrv : Option ℚ) :
    (generate_signal symbol candles ind news ml atrv).isSome = true ↔
      (5 ≤ candles.length ∧ 35 ≤ signalConfidence candles ind news ml) := by
  by_cases h5 : candles.length < 5
  · unfold generate_signal
    rw [if_pos h5]
    simp
    omega
  · obtain ⟨lc, hlast⟩ := getLast?_eq_some_of_pos (l := candles) (by omega)
    rw [generate_signal_eq h5 hlast]
    by_cases hc : signalConfidence candles ind news ml < 35
    · simp only [if_pos hc, Option.isSome_none, Bool.false_eq_true, false_iff]
      intro hand
      exact absurd hand.2 (not_le.2 hc)
    · simp [hc, not_lt.1 h5, not_lt.1 hc]

/-- Counterexample to C5: five flat candles with prediction 1 produce a BUY
signal whose effective ATR falls back to high−low = 0, so stop_loss =
entry_price = take_profit and the claimed strict ordering fails. -/
theorem C5_zero_atr_counterexample :
    (generate_signal "SPY" fiveFlat emptyIndicators none (some 1) none).map
        (fun s => (s.signal_type, s.entry_price, s.stop_loss, s.take_profit)) =
      some ("BUY", 100, 100, 100) ∧
    ¬ ((100 : ℚ) < 100) :=
  ⟨by with_unfolding_all rfl, by norm_num⟩

lemma atr_multiplier_pos (pa : Option PriceAction) :
    0 < (match pa with
         | some p => if p.trend_type = "uptrend" then (3 : ℚ) / 2 else 1
         | none => 1) := by
  rcases pa with _ | p
  · norm_num
  · dsimp only
    split_ifs <;> norm_num

lemma stop_loss_lt_entry_buy (entry atr : ℚ) (pa : Option PriceAction)
    (hatr : 0 < atr) : calculate_stop_loss entry "BUY" atr pa < entry := by
  have hm := atr_multiplier_pos pa
  unfold calculate_stop_loss
  rw [if_pos rfl]
  nlinarith

lemma entry_lt_take_profit_buy (entry atr : ℚ) (hatr : 0 < atr) :
    entry < calculate_take_profit entry "BUY" atr := by
  unfold calculate_take_profit
  rw [if_pos rfl]
  nlinarith

lemma entry_lt_stop_loss_sell (entry atr : ℚ) (pa : Option PriceAction)
    (hatr : 0 < atr) : entry < calculate_stop_loss entry "SELL" atr pa := by
  have hm := atr_multiplier_pos pa
  unfold calculate_stop_loss
  rw [if_neg (by decide), if_pos rfl]
  nlinarith

lemma take_profit_lt_entry_sell (entry atr : ℚ) (hatr : 0 < atr) :
    calculate_take_profit entry "SELL" atr < entry := by
  unfold calculate_take_profit
  rw [if_neg (by decide), if_pos rfl]
  nlinarith

/-- C5 (amended): for every produced TradeSignal whose effective ATR (the
given ATR, the indicator ATR, or the last candle's high minus low as
fallback) is positive, a BUY signal satisfies
stop_loss < entry_price < take_profit and a SELL signal satisfies
take_profit < entry_price < stop_loss. -/
theorem C5_risk_ordering (symbol : String) (candles : List Candle)
    (ind : TechnicalIndicators) (news ml atrv : Option ℚ) (sig : TradeSignal)
    (lc : Candle) (hlast : candles.getLast? = some lc)
    (hatr : 0 < atr_effective lc ind atrv)
    (h : generate_signal symbol candles ind news ml atrv = some sig) :
    (sig.signal_type = "BUY" →
      sig.stop_loss < sig.entry_price ∧ sig.entry_price < sig.take_profit) ∧
    (sig.signal_type = "SELL" →
      sig.take_profit < sig.entry_price ∧ sig.entry_price < sig.stop_loss) := by
  obtain ⟨lc', hlast', -, -, rfl⟩ := generate_signal_some h
  rw [hlast] at hlast'
  obtain rfl : lc = lc' := Option.some_inj.mp hlast'
  constructor
  · intro hty
    have hty' : determine_signal_type_ai_first (analyze_ml_prediction ml)
        (technical_avg lc.close candles ind) (analyze_news_sentiment news) =
        "BUY" := hty
    have h1 := stop_loss_lt_entry_buy lc.close (atr_effective lc ind atrv)
      (TechnicalAnalyzer.analyze_price_action candles) hatr
    have h2 := entry_lt_take_profit_buy lc.close (atr_effective lc ind atrv) hatr
    rw [← hty'] at h1 h2
    exact ⟨h1, h2⟩
  · intro hty
    have hty' : determine_signal_type_ai_first (analyze_ml_prediction ml)
        (technical_avg lc.close candles ind) (analyze_news_sentiment news) =
        "SELL" := hty
    have h1 := take_profit_lt_entry_sell lc.close (atr_effective lc ind atrv) hatr
    have h2 := entry_lt_stop_loss_sell lc.close (atr_effective lc ind atrv)
      (TechnicalAnalyzer.analyze_price_action candles) hatr
    rw [← hty'] at h1 h2
    exact ⟨h1, h2⟩

/-- Witness for C5_risk_ordering: five 2-point-range candles with prediction 1
give a BUY at entry 100 with stop 98 and target 104. -/
theorem C5_risk_ordering_witness :
    (⟨"SPY", "BUY", 125 / 2, 100, 98, 104⟩ : TradeSignal).stop_loss <
        (⟨"SPY", "BUY", 125 / 2, 100, 98, 104⟩ : TradeSignal).entry_price ∧
      (⟨"SPY", "BUY", 125 / 2, 100, 98, 104⟩ : TradeSignal).entry_price <
        (⟨"SPY", "BUY", 125 / 2, 100, 98, 104⟩ : TradeSignal).take_profit :=
  (C5_risk_ordering "SPY" fiveRange emptyIndicators none (some 1) none
    _ rangeCandle (by with_unfolding_all rfl) (by with_unfolding_all decide)
    (by with_unfolding_all rfl)).1 rfl

end Claims

namespace SignalGenerator

lemma analyze_rsi_bounds (ind : TechnicalIndicators) :
    0 ≤ analyze_rsi ind ∧ analyze_rsi ind ≤ 100 := by
  unfold analyze_rsi
  cases ind.rsi with
  | none => norm_num
  | some v =>
    dsimp only
    split_ifs <;> norm_num

lemma analyze_macd_bounds (ind : TechnicalIndicators) :
    0 ≤ analyze_macd ind ∧ analyze_macd ind ≤ 100 := by
  unfold analyze_macd
  cases ind.macd with
  | none => norm_num
  | some m =>
    cases ind.macd_signal with
    | none => norm_num
    | some ms =>
      dsimp only
      split_ifs <;> norm_num

lemma analyze_moving_averages_bounds (price : ℚ) (ind : TechnicalIndicators) :
    0 ≤ analyze_moving_averages price ind ∧ analyze_moving_averages price ind ≤ 100 := by
  unfold analyze_moving_averages
  cases ind.sma_20 with
  | none => norm_num
  | some a =>
    cases ind.sma_50 with
    | none => norm_num
    | some b =>
      dsimp only
      split_ifs <;> norm_num

lemma analyze_bollinger_bands_bounds (price : ℚ) (ind : TechnicalIndicators) :
    0 ≤ analyze_bollinger_bands price ind ∧ analyze_bollinger_bands price ind ≤ 100 := by
  unfold analyze_bollinger_bands
  cases ind.bollinger_upper with
  | none => norm_num
  | some u =>
    cases ind.bollinger_lower with
    | none => norm_num
    | some l =>
      dsimp only
      split_ifs <;> norm_num

lemma analyze_price_action_score_bounds (pa : Option PriceAction) :
    0 ≤ analyze_price_action_score pa ∧ analyze_price_action_score pa ≤ 100 := by
  unfold analyze_price_action_score
  cases pa with
  | none => norm_num
  | some p =>
    dsimp only
    split_ifs <;> norm_num

lemma analyze_news_sentiment_bounds (news : Option ℚ)
    (h : ∀ v, news = some v → -1 ≤ v ∧ v ≤ 1) :
    0 ≤ analyze_news_sentiment news ∧ analyze_news_sentiment news ≤ 100 := by
  unfold analyze_news_sentiment
  cases news with
  | none => norm_num
  | some v =>
    obtain ⟨h1, h2⟩ := h v rfl
    dsimp only
    constructor <;> nlinarith

lemma analyze_ml_prediction_bounds (ml : Option ℚ)
    (h : ∀ v, ml = some v → -1 ≤ v ∧ v ≤ 1) :
    0 ≤ analyze_ml_prediction ml ∧ analyze_ml_prediction ml ≤ 100 := by
  unfold analyze_ml_prediction
  cases ml with
  | none => norm_num
  | some v =>
    obtain ⟨h1, h2⟩ := h v rfl
    dsimp only
    constructor <;> nlinarith

lemma signalConfidence_bounds (candles : List Candle) (ind : TechnicalIndicators)
    (news ml : Option ℚ)
    (hnews : ∀ v, news = some v → -1 ≤ v ∧ v ≤ 1)
    (hml : ∀ v, ml = some v → -1 ≤ v ∧ v ≤ 1) :
    0 ≤ signalConfidence candles ind news ml ∧
      signalConfidence candles ind news ml ≤ 100 := by
  unfold signalConfidence
  cases candles.getLast? with
  | none => norm_num
  | some lc =>
    dsimp only
    unfold technical_avg
    obtain ⟨a1, a2⟩ := analyze_rsi_bounds ind
    obtain ⟨b1, b2⟩ := analyze_macd_bounds ind
    obtain ⟨c1, c2⟩ := analyze_moving_averages_bounds lc.close ind
    obtain ⟨d1, d2⟩ := analyze_bollinger_bands_bounds lc.close ind
    obtain ⟨e1, e2⟩ :=
      analyze_price_action_score_bounds (TechnicalAnalyzer.analyze_price_action candles)
    obtain ⟨f1, f2⟩ := analyze_news_sentiment_bounds news hnews
    obtain ⟨g1, g2⟩ := analyze_ml_prediction_bounds ml hml
    constructor <;> linarith

end SignalGenerator

section ClaimsMore

open SignalGenerator TechnicalAnalyzer MLPredictor

/-- C9: for every input with at least 5 candles, sentiment in [-1,1] or
absent and ml_prediction in [-1,1] or absent, the aggregate weighted
confidence of the produced TradeSignal lies in [0,100]. -/
theorem C9_confidence_in_range (symbol : String) (candles : List Candle)
    (ind : TechnicalIndicators) (news ml atrv : Option ℚ) (sig : TradeSignal)
    (hnews : ∀ v, news = some v → -1 ≤ v ∧ v ≤ 1)
    (hml : ∀ v, ml = some v → -1 ≤ v ∧ v ≤ 1)
    (h : generate_signal symbol candles ind news ml atrv = some sig) :
    0 ≤ sig.confidence ∧ sig.confidence ≤ 100 := by
  obtain ⟨lc, -, -, -, rfl⟩ := generate_signal_some h
  exact signalConfidence_bounds candles ind news ml hnews hml

/-- Witness for C9 with sentiment 1 and prediction 1 on five flat candles. -/
theorem C9_confidence_in_range_witness :
    0 ≤ (⟨"SPY", "BUY", 265 / 4, 100, 100, 100⟩ : TradeSignal).confidence ∧
      (⟨"SPY", "BUY", 265 / 4, 100, 100, 100⟩ : TradeSignal).confidence ≤ 100 :=
  C9_confidence_in_range "SPY" fiveFlat emptyIndicators (some 1) (some 1) none _
    (by intro v hv; injection hv with hv; subst hv; norm_num)
    (by intro v hv; injection hv with hv; subst hv; norm_num)
    (by with_unfolding_all rfl)

/-- Counterexample to C8: on the constant price list [1, 1, 1] with lookback 2
the volatility is 0 and the code returns confidence 0.05 = min(0.5/10, 1),
while the claimed formula min(|slope|/(volatility+eps)/10, 1) evaluates
to 0. -/
theorem C8_volatility_zero_counterexample :
    MLPredictor.predict_next_move [1, 1, 1] 2 (some 0) (1 / 20) ∧
    (1 / 20 : ℝ) ≠
      min (|((trendSlope (recent_prices [1, 1, 1] 2) : ℚ) : ℝ)| /
        (Real.sqrt ((varianceOf (pct_returns (recent_prices [1, 1, 1] 2)) : ℚ)) +
          1 / 10000) / 10) 1 := by
  have hslope : trendSlope (recent_prices [1, 1, 1] 2) = 0 := by
    with_unfolding_all decide
  have hvar : varianceOf (pct_returns (recent_prices [1, 1, 1] 2)) = 0 := by
    with_unfolding_all decide
  constructor
  · unfold MLPredictor.predict_next_move
    rw [if_neg (by norm_num)]
    dsimp only
    rw [hslope, hvar]
    push_cast
    rw [Real.sqrt_zero]
    rw [if_neg (lt_irrefl 0), if_neg (lt_irrefl 0)]
    norm_num
  · rw [hslope, hvar]
    push_cast
    rw [Real.sqrt_zero]
    norm_num

/-- C8 (amended): for every price list of positive prices of length ≥
lookback+1 (lookback ≥ 2), predict_next_move returns prediction =
tanh(slope/volatility) and confidence = min(|slope|/(volatility+eps)/10, 1)
when the volatility is positive; when the volatility is 0 it returns
prediction 0 and confidence min(0.5/10, 1) = 0.05, not the claimed formula. -/
theorem C8_prediction_confidence (prices : List ℚ) (lookback : ℕ)
    (hlb : 2 ≤ lookback) (hlen : lookback + 1 ≤ prices.length)
    (hpos : ∀ x ∈ prices, 0 < x) :
    (0 < Real.sqrt ((varianceOf (pct_returns (recent_prices prices lookback)) : ℚ)) →
      MLPredictor.predict_next_move prices lookback
        (some (Real.tanh (((trendSlope (recent_prices prices lookback) : ℚ) : ℝ) /
          Real.sqrt ((varianceOf (pct_returns (recent_prices prices lookback)) : ℚ)))))
        (min (|((trendSlope (recent_prices prices lookback) : ℚ) : ℝ)| /
          (Real.sqrt ((varianceOf (pct_returns (recent_prices prices lookback)) : ℚ)) +
            1 / 10000) / 10) 1)) ∧
    (Real.sqrt ((varianceOf (pct_returns (recent_prices prices lookback)) : ℚ)) = 0 →
      MLPredictor.predict_next_move prices lookback (some 0) (1 / 20)) := by
  constructor
  · intro hv
    unfold MLPredictor.predict_next_move
    rw [if_neg (not_lt.2 hlen)]
    dsimp only
    rw [if_pos hv, if_pos hv]
    exact ⟨rfl, rfl⟩
  · intro hv
    unfold MLPredictor.predict_next_move
    rw [if_neg (not_lt.2 hlen)]
    dsimp only
    rw [hv, if_neg (lt_irrefl 0), if_neg (lt_irrefl 0)]
    norm_num

/-- Witness for C8_prediction_confidence at the constant list [2, 2, 2]. -/
theorem C8_prediction_confidence_witness :
    MLPredictor.predict_next_move [2, 2, 2] 2 (some 0) (1 / 20) :=
  (C8_prediction_confidence [2, 2, 2] 2 (by norm_num) (by norm_num)
    (by decide)).2
    (by rw [show varianceOf (pct_returns (recent_prices [2, 2, 2] 2)) = 0 from
          by with_unfolding_all decide]
        push_cast
        exact Real.sqrt_zero)

end ClaimsMore

/-- Witness for C10 at a constant 26-price list. -/
theorem C10_macd_witness :
    (TechnicalAnalyzer.ema (List.replicate 26 (1 : ℚ)) 12).length =
      (List.replicate 26 (1 : ℚ)).length ∧
    (TechnicalAnalyzer.ema (List.replicate 26 (1 : ℚ)) 26).length =
      (List.replicate 26 (1 : ℚ)).length ∧
    ∃ m s g, TechnicalAnalyzer.calculate_macd (List.replicate 26 (1 : ℚ)) 12 26 9 =
      (some m, some s, some g) :=
  C10_macd_all_present _ (by simp)

end SpyTrade
